import Mathlib

/-!
Verification of the windsurf-endless MCP protocol/transport/session layer.

Shallow embedding of:
- `normalizeArgs`, `handleToolCall`, `handleRequest`, `handleRequestWithResponse`
  (src/extension/services/promptOptimizer.ts)
- the HTTP routing (`handleHTTPRequest`) and server lifecycle
  (`startHTTPServer`, `stopHTTPServer`, `restartHTTPServer`,
  `checkPortAvailable`, `switchTransport`)
- the tool name helpers (src/extension/views/helper.ts)
- the confirmation panel coordinator (src/extension/views/infiniteAskPanel.ts)
- the client connection monitor (src/webview/lib/connectionMonitor.ts)
-/

namespace WindsurfEndless

/-- JavaScript/JSON-like runtime values.  Objects are association lists in
insertion order (mirroring JS object key order); `vNull` stands for both
`null` and `undefined`. -/
inductive Value where
  | vNull : Value
  | vBool (b : Bool) : Value
  | vNum (n : Int) : Value
  | vStr (s : String) : Value
  | vArr (xs : List Value) : Value
  | vObj (fields : List (String × Value)) : Value

open Value

/-- JavaScript truthiness: `null`/`undefined`, `false`, `0` and `""` are falsy;
objects and arrays are always truthy. -/
def truthy : Value → Bool
  | vNull => false
  | vBool b => b
  | vNum n => n != 0
  | vStr s => !(s.isEmpty)
  | vArr _ => true
  | vObj _ => true

/-- JS property read `obj[k]` on an object (first binding wins, as JS objects
have unique keys). `none` stands for `undefined`. -/
def lookupField : List (String × Value) → String → Option Value
  | [], _ => none
  | (k', v) :: rest, k => if k' = k then some v else lookupField rest k

def hasKey (fields : List (String × Value)) (k : String) : Bool :=
  (lookupField fields k).isSome

/-- Override the value of one binding by the binding for the same key in `b`,
when `b` has one. -/
def overrideWith (b : List (String × Value)) (kv : String × Value) : String × Value :=
  match lookupField b kv.1 with
  | some w => (kv.1, w)
  | none => kv

/-- JS object spread `{...a, ...b}`: keys of `a` in order, values overridden
by `b` where present, then keys of `b` not in `a` appended in order. -/
def mergeFields (a b : List (String × Value)) : List (String × Value) :=
  a.map (overrideWith b) ++ b.filter (fun kv => !(hasKey a kv.1))

/-- Spreading an array into an object literal uses its indices as keys. -/
def arrToFields (xs : List Value) : List (String × Value) :=
  xs.enum.map (fun p => (toString p.1, p.2))

/-- `typeof v === 'object' && v` in JS: objects and arrays (JS `null` also has
typeof 'object' but is falsy, so the combined check excludes it). -/
def isObjLike : Value → Bool
  | vObj _ => true
  | vArr _ => true
  | _ => false

/-- The merge `{...fields, ...v}` performed by `normalizeArgs` when `v` is the
object-like value found under `input` or `arguments`. -/
def mergeValue (fields : List (String × Value)) (v : Value) : List (String × Value) :=
  match v with
  | vObj f => mergeFields fields f
  | vArr xs => mergeFields fields (arrToFields xs)
  | _ => fields

/-- `JSON.parse`, abstracted: a parser that fails on non-JSON strings.  The
`shrink` field records the one property of the real `JSON.parse` the
embedding needs: a string literal parses to a strictly shorter string
(its surrounding quotes are dropped), which bounds the recursion in
`normalizeArgs`. -/
structure JsonCodec where
  parse : String → Option Value
  shrink : ∀ s t, parse s = some (vStr t) → t.length < s.length

/-- Measure bounding the `parse`-recursion of `normalizeArgs`. -/
def strMeasure : Value → Nat
  | vStr s => s.length + 1
  | _ => 0

/-- `normalizeArgs` handling of an object: merge a truthy object-like `input`
sub-map, else a truthy object-like `arguments` sub-map, else return as-is. -/
def normalizeObj (fields : List (String × Value)) : Value :=
  match lookupField fields "input" with
  | some v =>
    if isObjLike v then vObj (mergeValue fields v)
    else match lookupField fields "arguments" with
      | some w => if isObjLike w then vObj (mergeValue fields w) else vObj fields
      | none => vObj fields
  | none =>
    match lookupField fields "arguments" with
    | some w => if isObjLike w then vObj (mergeValue fields w) else vObj fields
    | none => vObj fields

/-- Embeds `normalizeArgs` (promptOptimizer.ts:1369-1407): falsy input gives
`{}`; a string is parsed as JSON and the result normalized recursively, a
non-JSON string gives `{content: arg}`; a non-object scalar gives
`{value: arg}`; an object merges a nested `input` or `arguments` sub-map. -/
def normalizeArgs (J : JsonCodec) (args : Value) : Value :=
  if truthy args = false then vObj []
  else
    match args with
    | vNull => vObj []
    | vStr s =>
      match h : J.parse s with
      | some parsed => normalizeArgs J parsed
      | none => vObj [("content", vStr s)]
    | vBool b => vObj [("value", vBool b)]
    | vNum n => vObj [("value", vNum n)]
    | vArr xs => vArr xs
    | vObj fields => normalizeObj fields
termination_by strMeasure args
decreasing_by
  cases parsed with
  | vStr t =>
    have := J.shrink s t h
    simp [strMeasure]
    omega
  | vNull => simp [strMeasure]
  | vBool b => simp [strMeasure]
  | vNum n => simp [strMeasure]
  | vArr xs => simp [strMeasure]
  | vObj f => simp [strMeasure]

/-- A codec that rejects every string (used to instantiate closed tests). -/
def noJson : JsonCodec where
  parse := fun _ => none
  shrink := fun _ _ h => Option.noConfusion h

/-! Unfolding lemmas for `normalizeArgs`, one per input shape. -/

theorem normalizeArgs_null (J : JsonCodec) : normalizeArgs J vNull = vObj [] := by
  rw [normalizeArgs]
  simp [truthy]

theorem normalizeArgs_obj (J : JsonCodec) (f : List (String × Value)) :
    normalizeArgs J (vObj f) = normalizeObj f := by
  rw [normalizeArgs]
  simp [truthy]

theorem normalizeArgs_arr (J : JsonCodec) (xs : List Value) :
    normalizeArgs J (vArr xs) = vArr xs := by
  rw [normalizeArgs]
  simp [truthy]

theorem normalizeArgs_str_none (J : JsonCodec) (s : String)
    (hs : s.isEmpty = false) (hp : J.parse s = none) :
    normalizeArgs J (vStr s) = vObj [("content", vStr s)] := by
  rw [normalizeArgs, if_neg (by simp [truthy, hs])]
  split <;> simp_all

theorem normalizeArgs_str_some (J : JsonCodec) (s : String) (v : Value)
    (hs : s.isEmpty = false) (hp : J.parse s = some v) :
    normalizeArgs J (vStr s) = normalizeArgs J v := by
  rw [normalizeArgs, if_neg (by simp [truthy, hs])]
  split <;> simp_all

/-! Lookup/merge lemmas used in the idempotency analysis of `normalizeArgs`. -/

theorem lookupField_append (l₁ l₂ : List (String × Value)) (k : String) :
    lookupField (l₁ ++ l₂) k = (lookupField l₁ k).or (lookupField l₂ k) := by
  induction l₁ with
  | nil => simp [lookupField]
  | cons kv rest ih =>
    obtain ⟨k', v⟩ := kv
    by_cases h : k' = k <;> simp [lookupField, h, ih]

theorem overrideWith_eq (b : List (String × Value)) (k : String) (v : Value) :
    overrideWith b (k, v)
      = (k, match lookupField b k with
            | some w => w
            | none => v) := by
  rw [overrideWith]
  split <;> simp_all

theorem lookupField_map_override (a b : List (String × Value)) (k : String) :
    lookupField (a.map (overrideWith b)) k
      = (lookupField a k).map (fun v =>
          match lookupField b k with
          | some w => w
          | none => v) := by
  induction a with
  | nil => simp [lookupField]
  | cons kv rest ih =>
    obtain ⟨k', v⟩ := kv
    by_cases h : k' = k
    · subst h
      rcases hb : lookupField b k' with _ | w <;>
        simp [List.map_cons, overrideWith_eq, hb, lookupField]
    · rcases hb : lookupField b k' with _ | w <;>
        simp [List.map_cons, overrideWith_eq, hb, lookupField, h, ih]

theorem lookupField_filter_notKey (a b : List (String × Value)) (k : String)
    (ha : hasKey a k = false) :
    lookupField (b.filter (fun kv => !(hasKey a kv.1))) k = lookupField b k := by
  induction b with
  | nil => simp [lookupField]
  | cons kv rest ih =>
    obtain ⟨k', v⟩ := kv
    by_cases h : k' = k
    · subst h
      simp [List.filter_cons, ha, lookupField]
    · by_cases hk : hasKey a k' = false <;>
        simp [List.filter_cons, hk, lookupField, h, ih]

theorem lookupField_filter_key (a b : List (String × Value)) (k : String)
    (ha : hasKey a k = true) :
    lookupField (b.filter (fun kv => !(hasKey a kv.1))) k = none := by
  induction b with
  | nil => simp [lookupField]
  | cons kv rest ih =>
    obtain ⟨k', v⟩ := kv
    by_cases h : k' = k
    · subst h
      simp [List.filter_cons, ha, ih]
    · by_cases hk : hasKey a k' = false <;>
        simp [List.filter_cons, hk, lookupField, h, ih]

theorem lookupField_merge (a b : List (String × Value)) (k : String) :
    lookupField (mergeFields a b) k = (lookupField b k).or (lookupField a k) := by
  rw [mergeFields, lookupField_append, lookupField_map_override]
  by_cases ha : hasKey a k
  · rw [lookupField_filter_key a b k ha]
    rcases hres : lookupField a k with _ | v
    · simp [hasKey, hres] at ha
    · rcases hb : lookupField b k with _ | w <;> simp [hb, hres]
  · have ha' : hasKey a k = false := by simpa using ha
    rw [lookupField_filter_notKey a b k ha']
    have hres : lookupField a k = none := by
      simpa [hasKey, Option.isSome_iff_exists] using ha'
    rcases hb : lookupField b k with _ | w <;> simp [hb, hres]

theorem hasKey_merge (a b : List (String × Value)) (k : String) :
    hasKey (mergeFields a b) k = (hasKey a k || hasKey b k) := by
  rw [hasKey, lookupField_merge]
  rcases hb : lookupField b k with _ | w <;>
    rcases ha : lookupField a k with _ | v <;>
      simp [hasKey, ha, hb]

theorem hasKey_of_mem (b : List (String × Value)) (kv : String × Value)
    (h : kv ∈ b) : hasKey b kv.1 = true := by
  induction b with
  | nil => cases h
  | cons kv' rest ih =>
    rcases List.mem_cons.mp h with h' | h'
    · subst h'
      simp [hasKey, lookupField]
    · by_cases hk : kv'.1 = kv.1
      · simp [hasKey, lookupField, hk]
      · have := ih h'
        simpa [hasKey, lookupField, hk] using this

theorem lookupField_of_mem_nodup (b : List (String × Value)) (kv : String × Value)
    (hnd : (b.map Prod.fst).Nodup) (h : kv ∈ b) :
    lookupField b kv.1 = some kv.2 := by
  induction b with
  | nil => cases h
  | cons kv' rest ih =>
    rcases List.mem_cons.mp h with h' | h'
    · subst h'
      simp [lookupField]
    · have hk : kv'.1 ≠ kv.1 := by
        intro hcontra
        have hmem : kv.1 ∈ rest.map Prod.fst := List.mem_map_of_mem Prod.fst h'
        rw [List.map_cons, List.nodup_cons] at hnd
        exact hnd.1 (hcontra ▸ hmem)
      have hnd' : (rest.map Prod.fst).Nodup := by
        rw [List.map_cons, List.nodup_cons] at hnd
        exact hnd.2
      simp [lookupField, hk, ih hnd' h']

theorem overrideWith_idem (b : List (String × Value)) (kv : String × Value) :
    overrideWith b (overrideWith b kv) = overrideWith b kv := by
  obtain ⟨k, v⟩ := kv
  rcases hb : lookupField b k with _ | w <;>
    simp [overrideWith_eq, hb]

/-- Re-merging the same sub-map is a no-op: `{...{...a, ...b}, ...b} = {...a, ...b}`
provided `b` has no duplicate keys (JS objects never do). -/
theorem mergeFields_absorb (a b : List (String × Value))
    (hnd : (b.map Prod.fst).Nodup) :
    mergeFields (mergeFields a b) b = mergeFields a b := by
  have hdef : mergeFields (mergeFields a b) b
      = (mergeFields a b).map (overrideWith b)
        ++ b.filter (fun kv => !(hasKey (mergeFields a b) kv.1)) := rfl
  have hfilter : b.filter (fun kv => !(hasKey (mergeFields a b) kv.1)) = [] := by
    rw [List.filter_eq_nil_iff]
    intro kv hmem
    have := hasKey_of_mem b kv hmem
    simp [hasKey_merge, this]
  have hdef2 : mergeFields a b
      = a.map (overrideWith b) ++ b.filter (fun kv => !(hasKey a kv.1)) := rfl
  rw [hdef, hfilter, List.append_nil, hdef2, List.map_append, List.map_map]
  congr 1
  · apply List.map_congr_left
    intro kv _
    simp only [Function.comp_apply]
    exact overrideWith_idem b kv
  · have hfix : ∀ kv ∈ b.filter (fun kv => !(hasKey a kv.1)),
        overrideWith b kv = kv := by
      intro kv hkv
      have hmem : kv ∈ b := List.mem_of_mem_filter hkv
      rw [overrideWith, lookupField_of_mem_nodup b kv hnd hmem]
    calc (b.filter (fun kv => !(hasKey a kv.1))).map (overrideWith b)
        = (b.filter (fun kv => !(hasKey a kv.1))).map id :=
          List.map_congr_left hfix
      _ = b.filter (fun kv => !(hasKey a kv.1)) := List.map_id _

/-- The sub-map `normalizeObj` merges, if any: a truthy object-like `input`
entry takes precedence, else a truthy object-like `arguments` entry. -/
def wrapperChoice (f : List (String × Value)) : Option Value :=
  match lookupField f "input" with
  | some v =>
    if isObjLike v then some v
    else match lookupField f "arguments" with
      | some w => if isObjLike w then some w else none
      | none => none
  | none =>
    match lookupField f "arguments" with
    | some w => if isObjLike w then some w else none
    | none => none

theorem normalizeObj_eq (f : List (String × Value)) :
    normalizeObj f = match wrapperChoice f with
      | some v => vObj (mergeValue f v)
      | none => vObj f := by
  unfold normalizeObj wrapperChoice
  rcases h1 : lookupField f "input" with _ | v
  · rcases h2 : lookupField f "arguments" with _ | w
    · rfl
    · by_cases hw : isObjLike w <;> simp [hw]
  · by_cases hv : isObjLike v
    · simp [hv]
    · simp only [if_neg (by simp [hv] : ¬ isObjLike v = true), hv]
      rcases h2 : lookupField f "arguments" with _ | w
      · rfl
      · by_cases hw : isObjLike w <;> simp [hw]

/-- The field list an object-like value spreads as. -/
def fieldsOfWrapper : Value → List (String × Value)
  | vObj f => f
  | vArr xs => arrToFields xs
  | _ => []

theorem mergeValue_eq_fieldsOfWrapper (f : List (String × Value)) (v : Value)
    (hv : isObjLike v = true) :
    mergeValue f v = mergeFields f (fieldsOfWrapper v) := by
  cases v <;> simp_all [mergeValue, fieldsOfWrapper, isObjLike]

/-- The truthy object-like entry of `f` at key `k`, if any. -/
def objLikeEntry (f : List (String × Value)) (k : String) : Option Value :=
  match lookupField f k with
  | some v => if isObjLike v then some v else none
  | none => none

theorem wrapperChoice_eq_or (f : List (String × Value)) :
    wrapperChoice f = (objLikeEntry f "input").or (objLikeEntry f "arguments") := by
  unfold wrapperChoice objLikeEntry
  cases h1 : lookupField f "input" with
  | none =>
    cases h2 : lookupField f "arguments" with
    | none => rfl
    | some w => by_cases hw : isObjLike w <;> simp [hw]
  | some v =>
    by_cases hv : isObjLike v
    · simp [hv]
    · cases h2 : lookupField f "arguments" with
      | none => simp [hv]
      | some w => by_cases hw : isObjLike w <;> simp [hv, hw]

theorem objLikeEntry_isObjLike (f : List (String × Value)) (k : String) (v : Value)
    (h : objLikeEntry f k = some v) : isObjLike v = true := by
  unfold objLikeEntry at h
  cases h1 : lookupField f k with
  | none => simp [h1] at h
  | some u =>
    simp only [h1] at h
    by_cases hu : isObjLike u
    · simp only [if_pos hu, Option.some.injEq] at h
      exact h ▸ hu
    · simp [if_neg hu] at h

theorem wrapperChoice_isObjLike (f : List (String × Value)) (v : Value)
    (h : wrapperChoice f = some v) : isObjLike v = true := by
  rw [wrapperChoice_eq_or] at h
  rcases Option.or_eq_some.mp h with h' | ⟨_, h'⟩
  · exact objLikeEntry_isObjLike f "input" v h'
  · exact objLikeEntry_isObjLike f "arguments" v h'

theorem objLikeEntry_congr (a b : List (String × Value)) (k : String)
    (h : lookupField a k = lookupField b k) : objLikeEntry a k = objLikeEntry b k := by
  unfold objLikeEntry
  rw [h]

/-- After `normalizeObj` merged a sub-map that has no `input`/`arguments`
keys (and no duplicate keys), a second `normalizeObj` pass is the identity. -/
theorem normalizeObj_absorb (f : List (String × Value)) (v : Value)
    (hc : wrapperChoice f = some v)
    (hin : hasKey (fieldsOfWrapper v) "input" = false)
    (harg : hasKey (fieldsOfWrapper v) "arguments" = false)
    (hnd : ((fieldsOfWrapper v).map Prod.fst).Nodup) :
    normalizeObj (mergeValue f v) = vObj (mergeValue f v) := by
  have hobj := wrapperChoice_isObjLike f v hc
  rw [mergeValue_eq_fieldsOfWrapper f v hobj]
  have hwfin : lookupField (fieldsOfWrapper v) "input" = none := by
    rcases hres : lookupField (fieldsOfWrapper v) "input" with _ | u
    · rfl
    · rw [hasKey, hres] at hin
      simp at hin
  have hwfarg : lookupField (fieldsOfWrapper v) "arguments" = none := by
    rcases hres : lookupField (fieldsOfWrapper v) "arguments" with _ | u
    · rfl
    · rw [hasKey, hres] at harg
      simp at harg
  have hchoice : wrapperChoice (mergeFields f (fieldsOfWrapper v)) = some v := by
    rw [wrapperChoice_eq_or,
      objLikeEntry_congr (mergeFields f (fieldsOfWrapper v)) f "input"
        (by rw [lookupField_merge, hwfin]; simp),
      objLikeEntry_congr (mergeFields f (fieldsOfWrapper v)) f "arguments"
        (by rw [lookupField_merge, hwfarg]; simp),
      ← wrapperChoice_eq_or]
    exact hc
  have habsorb : mergeFields (mergeFields f (fieldsOfWrapper v)) (fieldsOfWrapper v)
      = mergeFields f (fieldsOfWrapper v) := mergeFields_absorb _ _ hnd
  rw [normalizeObj_eq, hchoice]
  show vObj (mergeValue (mergeFields f (fieldsOfWrapper v)) v)
      = vObj (mergeFields f (fieldsOfWrapper v))
  rw [mergeValue_eq_fieldsOfWrapper _ v hobj, habsorb]

/-- C5 (counterexample): `normalizeArgs` is NOT idempotent.  At
`{input: {input: {b: 2}}}` the first pass yields `{input: {b: 2}}` and the
second pass merges again, yielding `{input: {b: 2}, b: 2}`.  Also, the empty
string is not valid JSON yet degrades to `{}` (it is falsy), not to
`{content: ""}`. -/
theorem normalizeArgs_not_idempotent :
    (normalizeArgs noJson
        (normalizeArgs noJson
          (vObj [("input", vObj [("input", vObj [("b", vNum 2)])])]))
      ≠ normalizeArgs noJson
          (vObj [("input", vObj [("input", vObj [("b", vNum 2)])])])) ∧
    normalizeArgs noJson (vStr "") = vObj [] := by
  refine ⟨?_, by rw [normalizeArgs, if_pos (by decide)]⟩
  have h1 : normalizeArgs noJson
      (vObj [("input", vObj [("input", vObj [("b", vNum 2)])])])
      = vObj [("input", vObj [("b", vNum 2)])] := by
    rw [normalizeArgs_obj]
    rfl
  have h2 : normalizeArgs noJson (vObj [("input", vObj [("b", vNum 2)])])
      = vObj [("input", vObj [("b", vNum 2)]), ("b", vNum 2)] := by
    rw [normalizeArgs_obj]
    rfl
  rw [h1, h2]
  simp

/-- C5 (amended): `normalizeArgs` is total (never throws), degrades
`null`/`undefined` to `{}` and a non-JSON string to `{content: arg}`, and is
idempotent on arrays, on objects with no truthy object-like `input`/`arguments`
entry, and on objects whose merged sub-map carries no `input`/`arguments` key
of its own (with JS-unique keys); full idempotency fails, see the
counterexample. -/
theorem normalizeArgs_amended_spec (J : JsonCodec) :
    (normalizeArgs J vNull = vObj []) ∧
    (∀ s : String, s.isEmpty = false → J.parse s = none →
      normalizeArgs J (vStr s) = vObj [("content", vStr s)]) ∧
    (∀ xs : List Value,
      normalizeArgs J (normalizeArgs J (vArr xs)) = normalizeArgs J (vArr xs)) ∧
    (∀ f : List (String × Value), wrapperChoice f = none →
      normalizeArgs J (normalizeArgs J (vObj f)) = normalizeArgs J (vObj f)) ∧
    (∀ (f : List (String × Value)) (v : Value), wrapperChoice f = some v →
      hasKey (fieldsOfWrapper v) "input" = false →
      hasKey (fieldsOfWrapper v) "arguments" = false →
      ((fieldsOfWrapper v).map Prod.fst).Nodup →
      normalizeArgs J (normalizeArgs J (vObj f)) = normalizeArgs J (vObj f)) := by
  refine ⟨normalizeArgs_null J, fun s hs hp => normalizeArgs_str_none J s hs hp,
    fun xs => ?_, fun f hc => ?_, fun f v hc hin harg hnd => ?_⟩
  · rw [normalizeArgs_arr, normalizeArgs_arr]
  · have hthis : normalizeObj f = vObj f := by
      rw [normalizeObj_eq, hc]
    rw [normalizeArgs_obj, hthis, normalizeArgs_obj, hthis]
  · have hthis : normalizeObj f = vObj (mergeValue f v) := by
      rw [normalizeObj_eq, hc]
    rw [normalizeArgs_obj, hthis, normalizeArgs_obj,
      normalizeObj_absorb f v hc hin harg hnd]

/-- C5 (witness): the amended theorem applied at concrete inputs — a non-JSON
string degrades to `{content: arg}` and the single-level `{input: {a: 1}}`
nesting is a case where normalization is idempotent. -/
theorem normalizeArgs_amended_spec_witness :
    normalizeArgs noJson (vStr "plain text") = vObj [("content", vStr "plain text")] ∧
    normalizeArgs noJson (normalizeArgs noJson (vObj [("input", vObj [("a", vNum 1)])]))
      = normalizeArgs noJson (vObj [("input", vObj [("a", vNum 1)])]) := by
  constructor
  · exact (normalizeArgs_amended_spec noJson).2.1 "plain text" (by rfl) (by rfl)
  · exact (normalizeArgs_amended_spec noJson).2.2.2.2
      [("input", vObj [("a", vNum 1)])] (vObj [("a", vNum 1)])
      (by rfl) (by rfl) (by rfl) (by decide)

/-! Tool name rotation and matching (helper.ts:127-175). -/

/-- The rotated tool names cached once per activation. -/
structure ToolNames where
  checkpoint : String
  promptRefiner : String
  inputBridge : String
  deriving DecidableEq

/-- Name construction in `getRandomizedToolNames` (helper.ts:135-149):
`<prefix>_confirm_<suffix>` / `<prefix>_optimize_<suffix>` /
`<prefix>_fill_<suffix>`; the randomly drawn prefix and 4-letter suffix are
abstracted into the parameters `pre` and `suf`. -/
def generateToolNames (pre suf : String) : ToolNames where
  checkpoint := pre ++ "_confirm_" ++ suf
  promptRefiner := pre ++ "_optimize_" ++ suf
  inputBridge := pre ++ "_fill_" ++ suf

/-- The lazy cache in `getRandomizedToolNames`: reuse the cached names if
present, otherwise generate and cache. -/
def getRandomizedToolNames (cache : Option ToolNames) (pre suf : String) :
    ToolNames × Option ToolNames :=
  match cache with
  | some names => (names, some names)
  | none =>
    let names := generateToolNames pre suf
    (names, some names)

def checkpointLegacyNames : List String := ["windsurf-endless", "session_checkpoint"]

def promptRefinerLegacyNames : List String := ["optimize_prompt", "prompt_refiner"]

def inputBridgeLegacyNames : List String := ["fill_cascade_input", "input_bridge"]

/-- `isCheckpointToolName` (helper.ts:157-161). -/
def isCheckpointToolName (names : ToolNames) (name : String) : Bool :=
  name = names.checkpoint || checkpointLegacyNames.contains name

/-- `isPromptRefinerToolName` (helper.ts:164-168). -/
def isPromptRefinerToolName (names : ToolNames) (name : String) : Bool :=
  name = names.promptRefiner || promptRefinerLegacyNames.contains name

/-- `isInputBridgeToolName` (helper.ts:171-175). -/
def isInputBridgeToolName (names : ToolNames) (name : String) : Bool :=
  name = names.inputBridge || inputBridgeLegacyNames.contains name

/-- C7: `isCheckpointToolName` accepts the currently rotated checkpoint name,
accepts every legacy alias (`windsurf-endless`, `session_checkpoint`), and
rejects every other string. -/
theorem isCheckpointToolName_spec (pre suf name : String) :
    (isCheckpointToolName (generateToolNames pre suf)
        (generateToolNames pre suf).checkpoint = true) ∧
    (∀ l ∈ checkpointLegacyNames,
        isCheckpointToolName (generateToolNames pre suf) l = true) ∧
    (name ≠ (generateToolNames pre suf).checkpoint →
      name ∉ checkpointLegacyNames →
      isCheckpointToolName (generateToolNames pre suf) name = false) := by
  refine ⟨?_, ?_, ?_⟩
  · simp [isCheckpointToolName]
  · intro l hl
    simp [isCheckpointToolName, hl]
  · intro hrot hleg
    simp [isCheckpointToolName, hrot, hleg]

/-- C7 (witness): a concrete rotation `flow_confirm_xqtp` accepts itself and
the aliases and rejects an unrelated string. -/
theorem isCheckpointToolName_spec_witness :
    isCheckpointToolName (generateToolNames "flow" "xqtp") "flow_confirm_xqtp" = true ∧
    isCheckpointToolName (generateToolNames "flow" "xqtp") "windsurf-endless" = true ∧
    isCheckpointToolName (generateToolNames "flow" "xqtp") "session_checkpoint" = true ∧
    isCheckpointToolName (generateToolNames "flow" "xqtp") "unrelated_tool" = false := by
  refine ⟨?_, ?_, ?_, ?_⟩
  · have h := (isCheckpointToolName_spec "flow" "xqtp" "unrelated_tool").1
    simpa [generateToolNames] using h
  · exact (isCheckpointToolName_spec "flow" "xqtp" "unrelated_tool").2.1
      "windsurf-endless" (by decide)
  · exact (isCheckpointToolName_spec "flow" "xqtp" "unrelated_tool").2.1
      "session_checkpoint" (by decide)
  · exact (isCheckpointToolName_spec "flow" "xqtp" "unrelated_tool").2.2
      (by decide) (by decide)

/-! The protocol dispatcher (promptOptimizer.ts:1340-1717). -/

/-- Result delivered by the confirmation popup
(`showLocalPopup` / the injected popup handler). -/
structure PopupResult where
  shouldContinue : Bool
  userInstruction : Option String
  deriving DecidableEq

/-- Result of the pluggable prompt optimizer handler. -/
structure OptimizeResult where
  success : Bool
  optimizedPrompt : Option String
  error : Option String
  deriving DecidableEq

/-- Result of the pluggable fill-input handler. -/
structure FillResult where
  success : Bool
  error : Option String
  deriving DecidableEq

/-- The dispatcher environment: the current rotated tool names, the JSON
codec, the confirmation popup (`showLocalPopup`, which suspends until the
human answers or the session times out), the environment flag and the two
optional handlers (`customPromptOptimizerHandler`, `customFillInputHandler`). -/
structure ToolEnv where
  names : ToolNames
  codec : JsonCodec
  popup : Value → Value → PopupResult
  isWindsurf : Bool
  optimizer : Option (Value → OptimizeResult)
  fillInput : Option (Value → FillResult)

/-- JS `a || b` on values: `a` if truthy, else `b`. -/
def jsOr (a b : Value) : Value :=
  if truthy a then a else b

/-- JS property read on an arbitrary value (`undefined` off objects). -/
def getProp (v : Value) (k : String) : Value :=
  match v with
  | vObj f => (lookupField f k).getD vNull
  | _ => vNull

/-- Template-literal stringification; composite values are abstracted. -/
def jsToString : Value → String
  | vStr s => s
  | vNum n => toString n
  | vBool b => if b then "true" else "false"
  | vNull => "undefined"
  | vArr _ => "[array]"
  | vObj _ => "[object Object]"

/-- JS `s || d` on an optional string result field. -/
def jsOrStr (o : Option String) (d : String) : String :=
  match o with
  | some e => if e.isEmpty then d else e
  | none => d

/-- The `{content: [{type: 'text', text}]}` tool result envelope. -/
def textContent (t : String) : Value :=
  vObj [("content", vArr [vObj [("type", vStr "text"), ("text", vStr t)]])]

/-- Embeds `handleToolCall` (promptOptimizer.ts:1409-1538): normalizes the
arguments, dispatches on the resolved canonical tool, and throws
`Unknown tool: <name>` for a name matching no tool. -/
def handleToolCall (env : ToolEnv) (name : String) (args : Value) :
    Except String Value :=
  let n := normalizeArgs env.codec args
  if isCheckpointToolName env.names name then
    let summary := jsOr (getProp n "summary") (jsOr (getProp n "message")
      (jsOr (getProp n "content") (jsOr (getProp n "text")
        (jsOr (getProp n "description") (vStr "")))))
    let reason := jsOr (getProp n "reason") (jsOr (getProp n "stop_reason")
      (jsOr (getProp n "explanation") (vStr "")))
    let displaySummary := jsOr summary (jsOr reason (vStr "任务已完成"))
    let displayReason := jsOr reason (vStr "")
    let result := env.popup displaySummary displayReason
    let responseText :=
      "结果: should_continue=" ++ (if result.shouldContinue then "true" else "false")
        ++ (if result.shouldContinue then
              match result.userInstruction with
              | some instr => if instr.isEmpty then "" else "\n用户指令: " ++ instr
              | none => ""
            else "")
    .ok (textContent responseText)
  else if isPromptRefinerToolName env.names name then
    let prompt := getProp n "prompt"
    let optimized := getProp n "optimized_prompt"
    if truthy prompt = false then
      .ok (textContent "错误: 请提供需要优化的提示词 (prompt 参数)")
    else if truthy optimized then
      .ok (textContent ("优化成功！\n\n优化后的提示词：\n" ++ jsToString optimized
        ++ "\n\n提示：请调用 " ++ env.names.inputBridge ++ " 工具将此提示词填入输入框。"))
    else if env.isWindsurf then
      .ok (textContent ("请你直接优化以下提示词，优化后调用此工具时在 optimized_prompt 参数中提供优化结果，然后调用 "
        ++ env.names.inputBridge
        ++ " 填入输入框。\n\n需要优化的原始提示词：\n" ++ jsToString prompt
        ++ "\n\n优化要求：\n1. 保持原始意图不变\n2. 使表达更加清晰具体\n3. 添加必要的上下文和约束\n4. 使用更专业的措辞\n5. 保持简洁"))
    else
      match env.optimizer with
      | some opt =>
        let r := opt prompt
        if r.success && !(jsOrStr r.optimizedPrompt "").isEmpty then
          .ok (textContent ("优化成功！\n\n优化后的提示词：\n" ++ jsOrStr r.optimizedPrompt ""
            ++ "\n\n提示：你可以调用 " ++ env.names.inputBridge ++ " 工具将此提示词填入输入框。"))
        else
          .ok (textContent ("优化失败: " ++ jsOrStr r.error "未知错误"))
      | none => .ok (textContent "错误: 提示词优化服务未配置。请确保扩展已正确加载。")
  else if isInputBridgeToolName env.names name then
    let content := getProp n "content"
    if truthy content = false then
      .ok (textContent "错误: 请提供要填入的内容 (content 参数)")
    else
      match env.fillInput with
      | some fi =>
        let r := fi content
        if r.success then
          .ok (textContent "成功！内容已填入对话框的自定义指令输入框。")
        else
          .ok (textContent ("填入失败: " ++ jsOrStr r.error "未知错误"))
      | none => .ok (textContent "错误: 填入输入框服务未配置。请确保扩展已正确加载。")
  else
    .error ("Unknown tool: " ++ name)

/-- The `params` object of a `tools/call` request. -/
structure RpcParams where
  name : String
  arguments : Value

/-- A JSON-RPC request; `id := none` is a notification, `params := none`
models an absent `params` object. -/
structure MCPRequest where
  id : Option Int
  method : String
  params : Option RpcParams

structure ErrorObj where
  code : Int
  message : String
  deriving DecidableEq

/-- A JSON-RPC response: either `result` or `error` is set. -/
structure MCPResponse where
  id : Option Int
  result : Option Value
  error : Option ErrorObj

def VERSION : String := "1.0.0"

/-- The fixed `initialize` result envelope. -/
def initializeResult : Value :=
  vObj [("protocolVersion", vStr "2024-11-05"),
        ("serverInfo", vObj [("name", vStr "windsurf-endless"),
                             ("version", vStr VERSION)]),
        ("capabilities", vObj [("tools", vObj [])])]

/-- `generateTools` (promptOptimizer.ts:1297-1338): the three tools under
their current rotated names. -/
def generateTools (names : ToolNames) : List Value :=
  [vObj [("name", vStr names.checkpoint), ("description", vStr ""),
         ("inputSchema", vObj [("type", vStr "object"),
           ("properties", vObj [("summary", vObj [("type", vStr "string")]),
                                ("reason", vObj [("type", vStr "string")]),
                                ("workspace", vObj [("type", vStr "string")])]),
           ("required", vArr [vStr "summary"])])],
   vObj [("name", vStr names.promptRefiner), ("description", vStr ""),
         ("inputSchema", vObj [("type", vStr "object"),
           ("properties", vObj [("prompt", vObj [("type", vStr "string")]),
                                ("optimized_prompt", vObj [("type", vStr "string")])]),
           ("required", vArr [vStr "prompt"])])],
   vObj [("name", vStr names.inputBridge), ("description", vStr ""),
         ("inputSchema", vObj [("type", vStr "object"),
           ("properties", vObj [("content", vObj [("type", vStr "string")])]),
           ("required", vArr [vStr "content"])])]]

/-- Embeds `handleRequestWithResponse` (promptOptimizer.ts:1680-1717), the
HTTP-side dispatcher: returns the response object, or `null` for the
notification-style methods and for errors on id-less requests.  An absent
`params` on `tools/call` throws at `params.name`; the catch turns it into a
`-32603` response when the request has an id. -/
def handleRequestWithResponse (env : ToolEnv) (req : MCPRequest) :
    Option MCPResponse :=
  if req.method = "initialize" then
    some { id := req.id, result := some initializeResult, error := none }
  else if req.method = "tools/list" then
    some { id := req.id,
           result := some (vObj [("tools", vArr (generateTools env.names))]),
           error := none }
  else if req.method = "tools/call" then
    match req.params with
    | none =>
      if req.id.isSome then
        some { id := req.id, result := none,
               error := some ⟨-32603, "Cannot read properties of undefined"⟩ }
      else none
    | some p =>
      match handleToolCall env p.name (if truthy p.arguments then p.arguments else vObj []) with
      | .ok r => some { id := req.id, result := some r, error := none }
      | .error e =>
        if req.id.isSome then
          some { id := req.id, result := none, error := some ⟨-32603, e⟩ }
        else none
  else if req.method = "initialized" ∨ req.method = "notifications/cancelled" then
    none
  else if req.id.isSome then
    some { id := req.id, result := none,
           error := some ⟨-32601, "Unknown method: " ++ req.method⟩ }
  else none

/-- Embeds `handleRequest` (promptOptimizer.ts:1540-1574), the stdio-side
dispatcher; the returned list is the sequence of responses written to
stdout (via `sendResponse`/`sendError`). -/
def handleRequest (env : ToolEnv) (req : MCPRequest) : List MCPResponse :=
  if req.method = "initialize" then
    [{ id := req.id, result := some initializeResult, error := none }]
  else if req.method = "tools/list" then
    [{ id := req.id,
       result := some (vObj [("tools", vArr (generateTools env.names))]),
       error := none }]
  else if req.method = "tools/call" then
    match req.params with
    | none =>
      if req.id.isSome then
        [{ id := req.id, result := none,
           error := some ⟨-32603, "Cannot read properties of undefined"⟩ }]
      else []
    | some p =>
      match handleToolCall env p.name (if truthy p.arguments then p.arguments else vObj []) with
      | .ok r => [{ id := req.id, result := some r, error := none }]
      | .error e =>
        if req.id.isSome then
          [{ id := req.id, result := none, error := some ⟨-32603, e⟩ }]
        else []
  else if req.method = "initialized" ∨ req.method = "notifications/cancelled" then
    []
  else if req.id.isSome then
    [{ id := req.id, result := none,
       error := some ⟨-32601, "Unknown method: " ++ req.method⟩ }]
  else []

/-- A concrete dispatcher environment for closed tests. -/
def toolEnv0 : ToolEnv where
  names := generateToolNames "flow" "xqtp"
  codec := noJson
  popup := fun _ _ => { shouldContinue := false, userInstruction := none }
  isWindsurf := true
  optimizer := none
  fillInput := none

/-- C1 (counterexample): the claim fails in both directions.  A request WITH
id 1 for the notification-style method `initialized` gets no response at all,
and a notification (no id) for `initialize` still gets a response object. -/
theorem dispatcher_id_claim_counterexample :
    handleRequestWithResponse toolEnv0
        { id := some 1, method := "initialized", params := none } = none ∧
    handleRequestWithResponse toolEnv0
        { id := none, method := "initialize", params := none }
      = some { id := none, result := some initializeResult, error := none } := by
  exact ⟨rfl, rfl⟩

/-- C1 (amended): for `initialize`, `tools/list`, `tools/call` and unknown
methods, a request with an id gets exactly one response carrying that id (on
both the HTTP and the stdio dispatcher), and id-less notifications of unknown
or notification-style methods get none and never throw; but the
notification-style methods `initialized`/`notifications/cancelled` return no
response even when an id is present, and id-less requests for the three core
methods still produce a response object (with no id). -/
theorem dispatcher_responds_amended (env : ToolEnv) (req : MCPRequest) (i : Int) :
    (req.id = some i → req.method ≠ "initialized" →
      req.method ≠ "notifications/cancelled" →
      ∃ r : MCPResponse,
        handleRequestWithResponse env req = some r ∧ r.id = some i) ∧
    (req.id = some i →
      (req.method = "initialized" ∨ req.method = "notifications/cancelled") →
      handleRequestWithResponse env req = none) ∧
    (req.id = none → req.method ≠ "initialize" → req.method ≠ "tools/list" →
      req.method ≠ "tools/call" → handleRequestWithResponse env req = none) ∧
    (req.id = some i → req.method ≠ "initialized" →
      req.method ≠ "notifications/cancelled" →
      ∃ r : MCPResponse, handleRequest env req = [r] ∧ r.id = some i) ∧
    (req.id = none → req.method ≠ "initialize" → req.method ≠ "tools/list" →
      req.method ≠ "tools/call" → handleRequest env req = []) := by
  refine ⟨?_, ?_, ?_, ?_, ?_⟩
  · intro hid hn1 hn2
    by_cases h1 : req.method = "initialize"
    · exact ⟨{ id := req.id, result := some initializeResult, error := none },
        by simp [handleRequestWithResponse, h1], by simp [hid]⟩
    by_cases h2 : req.method = "tools/list"
    · exact ⟨{ id := req.id,
               result := some (vObj [("tools", vArr (generateTools env.names))]),
               error := none },
        by simp [handleRequestWithResponse, h1, h2], by simp [hid]⟩
    by_cases h3 : req.method = "tools/call"
    · rcases hp : req.params with _ | p
      · exact ⟨{ id := req.id, result := none,
                 error := some ⟨-32603, "Cannot read properties of undefined"⟩ },
          by simp [handleRequestWithResponse, h1, h2, h3, hp, hid],
          by simp [hid]⟩
      · rcases hr : handleToolCall env p.name
            (if truthy p.arguments then p.arguments else vObj []) with e | r
        · exact ⟨{ id := req.id, result := none, error := some ⟨-32603, e⟩ },
            by simp [handleRequestWithResponse, h1, h2, h3, hp, hr, hid],
            by simp [hid]⟩
        · exact ⟨{ id := req.id, result := some r, error := none },
            by simp [handleRequestWithResponse, h1, h2, h3, hp, hr],
            by simp [hid]⟩
    · exact ⟨{ id := req.id, result := none,
               error := some ⟨-32601, "Unknown method: " ++ req.method⟩ },
        by simp [handleRequestWithResponse, h1, h2, h3, hn1, hn2, hid],
        by simp [hid]⟩
  · intro hid hnotif
    rcases hnotif with hm | hm <;>
      simp [handleRequestWithResponse, hm]
  · intro hid hn1 hn2 hn3
    by_cases h4 : req.method = "initialized"
    · simp [handleRequestWithResponse, h4, hn1, hn2, hn3]
    by_cases h5 : req.method = "notifications/cancelled"
    · simp [handleRequestWithResponse, h5, hn1, hn2, hn3]
    · simp [handleRequestWithResponse, hn1, hn2, hn3, h4, h5, hid]
  · intro hid hn1 hn2
    by_cases h1 : req.method = "initialize"
    · exact ⟨{ id := req.id, result := some initializeResult, error := none },
        by simp [handleRequest, h1], by simp [hid]⟩
    by_cases h2 : req.method = "tools/list"
    · exact ⟨{ id := req.id,
               result := some (vObj [("tools", vArr (generateTools env.names))]),
               error := none },
        by simp [handleRequest, h1, h2], by simp [hid]⟩
    by_cases h3 : req.method = "tools/call"
    · rcases hp : req.params with _ | p
      · exact ⟨{ id := req.id, result := none,
                 error := some ⟨-32603, "Cannot read properties of undefined"⟩ },
          by simp [handleRequest, h1, h2, h3, hp, hid],
          by simp [hid]⟩
      · rcases hr : handleToolCall env p.name
            (if truthy p.arguments then p.arguments else vObj []) with e | r
        · exact ⟨{ id := req.id, result := none, error := some ⟨-32603, e⟩ },
            by simp [handleRequest, h1, h2, h3, hp, hr, hid],
            by simp [hid]⟩
        · exact ⟨{ id := req.id, result := some r, error := none },
            by simp [handleRequest, h1, h2, h3, hp, hr],
            by simp [hid]⟩
    · exact ⟨{ id := req.id, result := none,
               error := some ⟨-32601, "Unknown method: " ++ req.method⟩ },
        by simp [handleRequest, h1, h2, h3, hn1, hn2, hid],
        by simp [hid]⟩
  · intro hid hn1 hn2 hn3
    by_cases h4 : req.method = "initialized"
    · simp [handleRequest, h4, hn1, hn2, hn3]
    by_cases h5 : req.method = "notifications/cancelled"
    · simp [handleRequest, h5, hn1, hn2, hn3]
    · simp [handleRequest, hn1, hn2, hn3, h4, h5, hid]

/-- C1 (witness): at an unknown method with id 5, a response with id 5
exists, and a notification-style method with an id yields none. -/
theorem dispatcher_responds_amended_witness :
    (∃ r : MCPResponse,
        handleRequestWithResponse toolEnv0
          { id := some 5, method := "status/echo", params := none } = some r ∧
        r.id = some 5) ∧
    handleRequestWithResponse toolEnv0
        { id := some 5, method := "initialized", params := none } = none := by
  constructor
  · exact (dispatcher_responds_amended toolEnv0
      { id := some 5, method := "status/echo", params := none } 5).1
      rfl (by decide) (by decide)
  · exact (dispatcher_responds_amended toolEnv0
      { id := some 5, method := "initialized", params := none } 5).2.1
      rfl (Or.inl rfl)

/-- C4 (counterexample): an unknown tool name is NOT surfaced as a tool-call
error inside the result; the dispatcher returns a protocol-level JSON-RPC
error envelope with code `-32603` and no `result`. -/
theorem unknown_tool_error_envelope_counterexample :
    handleRequestWithResponse toolEnv0
        { id := some 7, method := "tools/call",
          params := some { name := "nonexistent_tool", arguments := vObj [] } }
      = some { id := some 7, result := none,
               error := some ⟨-32603, "Unknown tool: nonexistent_tool"⟩ } := by
  rfl

/-- C4 (amended): a `tools/call` whose name matches no current rotated name
and no legacy alias makes `handleToolCall` throw `Unknown tool: <name>`, which
the dispatcher surfaces as a protocol-level JSON-RPC error envelope with code
`-32603` (not as a tool-call result). -/
theorem unknown_tool_amended (env : ToolEnv) (name : String) (args : Value)
    (i : Int)
    (h1 : isCheckpointToolName env.names name = false)
    (h2 : isPromptRefinerToolName env.names name = false)
    (h3 : isInputBridgeToolName env.names name = false) :
    handleToolCall env name args = .error ("Unknown tool: " ++ name) ∧
    handleRequestWithResponse env
        { id := some i, method := "tools/call", params := some ⟨name, args⟩ }
      = some { id := some i, result := none,
               error := some ⟨-32603, "Unknown tool: " ++ name⟩ } := by
  have htcAny : ∀ a : Value,
      handleToolCall env name a = .error ("Unknown tool: " ++ name) := by
    intro a
    simp [handleToolCall, h1, h2, h3]
  refine ⟨htcAny args, ?_⟩
  simp [handleRequestWithResponse, htcAny]

/-- C4 (witness): the amended theorem at the concrete unknown name
`nonexistent_tool`. -/
theorem unknown_tool_amended_witness :
    handleToolCall toolEnv0 "nonexistent_tool" (vObj [])
      = .error ("Unknown tool: " ++ "nonexistent_tool") :=
  (unknown_tool_amended toolEnv0 "nonexistent_tool" (vObj []) 7
    (by decide) (by decide) (by decide)).1

/-! HTTP routing (`handleHTTPRequest`, promptOptimizer.ts:1598-1678). -/

/-- The possible dispositions of one HTTP request. -/
inductive HttpOutcome where
  | options204
  | reply (status : Nat) (body : Value)
  | sseStream
  | rpcPost
  | notFound404

/-- Embeds the routing of `handleHTTPRequest`: CORS preflight, the `/health`
endpoint, the SSE endpoints, the JSON-RPC POST endpoint and the 404 fallback.
`uptime` is the current `process.uptime()` and `clients` the current
`sseClients.length`. -/
def handleHTTPRequest (method url : String) (uptime : Int) (clients : Nat) :
    HttpOutcome :=
  if method = "OPTIONS" then .options204
  else if method = "GET" ∧ url = "/health" then
    .reply 200 (vObj [("status", vStr "ok"), ("version", vStr VERSION),
                      ("uptime", vNum uptime), ("clients", vNum clients)])
  else if method = "GET" ∧ (url = "/" ∨ url = "/sse" ∨ url = "/events") then
    .sseStream
  else if method = "POST" then .rpcPost
  else .notFound404

/-- C6 (counterexample): the health body's keys are `uptime` and `clients`,
not `uptimeSeconds` and `clientCount` as the claim states — at uptime 42 and
3 SSE clients the body carries neither claimed key. -/
theorem health_body_keys_counterexample :
    handleHTTPRequest "GET" "/health" 42 3
      = .reply 200 (vObj [("status", vStr "ok"), ("version", vStr "1.0.0"),
                          ("uptime", vNum 42), ("clients", vNum 3)]) ∧
    lookupField [("status", vStr "ok"), ("version", vStr "1.0.0"),
                 ("uptime", vNum 42), ("clients", vNum 3)] "uptimeSeconds" = none ∧
    lookupField [("status", vStr "ok"), ("version", vStr "1.0.0"),
                 ("uptime", vNum 42), ("clients", vNum 3)] "clientCount" = none := by
  exact ⟨rfl, rfl, rfl⟩

/-- C6 (amended): every GET request to `/health` is answered with status 200
and the JSON body `{status: "ok", version, uptime, clients}`, where `clients`
equals the number of currently subscribed SSE clients. -/
theorem health_endpoint_amended (uptime : Int) (clients : Nat) :
    handleHTTPRequest "GET" "/health" uptime clients
      = .reply 200 (vObj [("status", vStr "ok"), ("version", vStr VERSION),
                          ("uptime", vNum uptime), ("clients", vNum clients)]) := by
  rfl

/-! Client connection monitor (connectionMonitor.ts). -/

inductive ConnStatus where
  | connected
  | connecting
  | disconnected
  | errorStatus
  deriving DecidableEq

/-- The monitor's `ConnectionState`. -/
structure ConnectionState where
  status : ConnStatus
  latency : Int
  lastPing : Int
  reconnectAttempts : Nat
  qualityScore : Nat
  error : Option String
  deriving DecidableEq

def MAX_RECONNECT_ATTEMPTS : Nat := 5

def RECONNECT_DELAY : Nat := 2000

/-- `updateQualityScore` (connectionMonitor.ts:121-148): a step function of
latency; zero when not connected. -/
def qualityScoreOf (st : ConnectionState) : Nat :=
  if st.status ≠ ConnStatus.connected then 0
  else if st.latency < 50 then 100
  else if st.latency < 100 then 80
  else if st.latency < 200 then 60
  else if st.latency < 500 then 40
  else if st.latency < 1000 then 20
  else 10

/-- `updateStatus` (connectionMonitor.ts:106-116): set status and error,
reset the attempt counter on `connected`, recompute the quality score. -/
def updateStatus (st : ConnectionState) (status : ConnStatus)
    (err : Option String) : ConnectionState :=
  let st1 := { st with status := status, error := err }
  let st2 := if status = ConnStatus.connected
    then { st1 with reconnectAttempts := 0 } else st1
  { st2 with qualityScore := qualityScoreOf st2 }

/-- `getDefaultState` (connectionMonitor.ts:26-34). -/
def getDefaultState : ConnectionState :=
  { status := ConnStatus.disconnected, latency := 0, lastPing := 0,
    reconnectAttempts := 0, qualityScore := 0, error := none }

/-- The state set by `start()` before the initial probe. -/
def startMonitor (st : ConnectionState) : ConnectionState :=
  updateStatus st ConnStatus.connecting none

/-- Embeds `handlePingError` (connectionMonitor.ts:213-239) together with the
`scheduleReconnect` it calls: returns the new state and the scheduled
reconnect delay (`none` when no reconnect is scheduled). -/
def handlePingError (st : ConnectionState) (errMsg : String) :
    ConnectionState × Option Nat :=
  if st.reconnectAttempts < MAX_RECONNECT_ATTEMPTS then
    let st1 := updateStatus st ConnStatus.connecting (some errMsg)
    let delay := RECONNECT_DELAY * 2 ^ st1.reconnectAttempts
    ({ st1 with reconnectAttempts := st1.reconnectAttempts + 1 }, some delay)
  else
    (updateStatus st ConnStatus.errorStatus
      (some ("Max reconnect attempts reached: " ++ errMsg)), none)

/-- The state after `start()` and `n` consecutive probe failures. -/
def failN (msg : String) : Nat → ConnectionState
  | 0 => startMonitor getDefaultState
  | n + 1 => (handlePingError (failN msg n) msg).1

theorem failN_attempts (msg : String) :
    ∀ k, k ≤ 5 → (failN msg k).reconnectAttempts = k ∧
      (failN msg k).status = ConnStatus.connecting := by
  intro k
  induction k with
  | zero => intro _; exact ⟨rfl, rfl⟩
  | succ k ih =>
    intro hk
    have hk' : k ≤ 5 := Nat.le_of_succ_le hk
    have hklt : k < 5 := Nat.lt_of_succ_le hk
    obtain ⟨ha, hs⟩ := ih hk'
    constructor
    · simp [failN, handlePingError, MAX_RECONNECT_ATTEMPTS, ha, hklt,
        updateStatus]
    · simp [failN, handlePingError, MAX_RECONNECT_ATTEMPTS, ha, hklt,
        updateStatus]

/-- C8: starting from `reconnectAttempts = 0`, the k-th consecutive failure
(k = 0..4) schedules a reconnect with delay `2000 * 2^k`
(2000, 4000, 8000, 16000, 32000 ms) while the status stays `connecting`;
the failure after the 5 attempts are exhausted sets status `error` and
schedules no reconnect. -/
theorem backoff_spec (msg : String) :
    (∀ k, k < 5 →
      (handlePingError (failN msg k) msg).2 = some (2000 * 2 ^ k) ∧
      (handlePingError (failN msg k) msg).1.status = ConnStatus.connecting) ∧
    (handlePingError (failN msg 5) msg).2 = none ∧
    (handlePingError (failN msg 5) msg).1.status = ConnStatus.errorStatus := by
  refine ⟨fun k hk => ?_, ?_, ?_⟩
  · obtain ⟨ha, hs⟩ := failN_attempts msg k (Nat.le_of_lt hk)
    constructor
    · simp [handlePingError, MAX_RECONNECT_ATTEMPTS, RECONNECT_DELAY, ha, hk,
        updateStatus]
    · simp [handlePingError, MAX_RECONNECT_ATTEMPTS, ha, hk, updateStatus]
  · obtain ⟨ha, hs⟩ := failN_attempts msg 5 (Nat.le_refl 5)
    simp [handlePingError, MAX_RECONNECT_ATTEMPTS, ha]
  · obtain ⟨ha, hs⟩ := failN_attempts msg 5 (Nat.le_refl 5)
    simp [handlePingError, MAX_RECONNECT_ATTEMPTS, ha, updateStatus]

/-- C8 (witness): at the 4th failure (k = 3) the delay is 16000 ms and the
status is still `connecting`; after exhaustion the status is `error`. -/
theorem backoff_spec_witness :
    (handlePingError (failN "probe timeout" 3) "probe timeout").2 = some 16000 ∧
    (handlePingError (failN "probe timeout" 3) "probe timeout").1.status
      = ConnStatus.connecting ∧
    (handlePingError (failN "probe timeout" 5) "probe timeout").1.status
      = ConnStatus.errorStatus := by
  obtain ⟨h1, h2⟩ := (backoff_spec "probe timeout").1 3 (by decide)
  refine ⟨?_, h2, (backoff_spec "probe timeout").2.2⟩
  simpa using h1

/-! Server lifecycle (promptOptimizer.ts:1719-1905). -/

/-- `ServerState` (promptOptimizer.ts:894-902). -/
structure ServerState where
  isRunning : Bool
  transport : String
  port : Int
  uptime : Int
  clientCount : Nat
  startedAt : Option Int
  error : Option String
  deriving DecidableEq

/-- The process-level state the lifecycle functions mutate — the singleton
`currentServerState`, whether `httpServer` is non-null, the port a live
listener is bound to, `sseClients.length` and the stdio flag — together with
the environment: ports bound by other processes, and the clock
(`Date.now()`). -/
structure SysState where
  server : ServerState
  httpServerObj : Bool
  listening : Option Int
  sseCount : Nat
  stdioActive : Bool
  occupied : List Int
  now : Int
  deriving DecidableEq

/-- Embeds `startHTTPServer` (1719-1756): immediate success when
`httpServer` is already non-null; otherwise create and bind the listener.
Binding fails when another process holds the port — the error path keeps
`httpServer` assigned (it was set before `listen`), records the failure in
`currentServerState` and rejects. -/
def startHTTPServer (p : Int) (s : SysState) : SysState × Except String Unit :=
  if s.httpServerObj then (s, .ok ())
  else if s.occupied.contains p then
    ({ s with
        httpServerObj := true,
        server := { s.server with
                      isRunning := false,
                      error := some "EADDRINUSE" } },
      .error "EADDRINUSE")
  else
    ({ s with
        httpServerObj := true,
        listening := some p,
        server := { isRunning := true, transport := "http", port := p,
                    uptime := 0, clientCount := 0, startedAt := some s.now,
                    error := none } },
      .ok ())

/-- Embeds `stopHTTPServer` (1758-1788): close every SSE connection, clear
the subscriber list, close and null the listener, reset the state (keeping
the port). -/
def stopHTTPServer (s : SysState) : SysState :=
  if s.httpServerObj then
    { s with
        sseCount := 0, httpServerObj := false, listening := none,
        server := { isRunning := false, transport := "http",
                    port := s.server.port, uptime := 0, clientCount := 0,
                    startedAt := none, error := none } }
  else s

/-- Embeds `restartHTTPServer` (1793-1801): stop, settle, start
(the 100 ms settle delay has no observable effect in the model). -/
def restartHTTPServer (p : Int) (s : SysState) : SysState × Except String Unit :=
  startHTTPServer p (stopHTTPServer s)

/-- Embeds `checkPortAvailable` (1806-1822): bind-then-close a probe
listener; the probe bind fails while anything — another process or our own
live listener — holds the port. -/
def checkPortAvailable (p : Int) (s : SysState) : Bool :=
  !(s.occupied.contains p) && s.listening != some p

/-- Embeds `startStdioServer` (1887-1905): attach the readline interface. -/
def startStdioServer (s : SysState) : SysState :=
  { s with stdioActive := true }

/-- The `{success, error?}` result of `switchTransport`. -/
structure SwitchResult where
  success : Bool
  error : Option String
  deriving DecidableEq

/-- Embeds `switchTransport` (1840-1884).  `portArg := none` models a call
that defaults the port to `currentServerState.port`.  The surrounding
try/catch converts every internal failure into `{success: false, error}`. -/
def switchTransport (transport : String) (portArg : Option Int)
    (s : SysState) : SysState × SwitchResult :=
  let port := portArg.getD s.server.port
  if transport = "http" ∨ transport = "auto" then
    if (!s.server.isRunning || s.server.port != port)
        && !(checkPortAvailable port s) then
      (s, { success := false,
            error := some ("端口 " ++ toString port ++ " 已被占用") })
    else
      match restartHTTPServer port s with
      | (s', .ok _) => (s', { success := true, error := none })
      | (s', .error e) => (s', { success := false, error := some e })
  else if transport = "stdio" then
    let s1 := startStdioServer (stopHTTPServer s)
    ({ s1 with
        server := { isRunning := true, transport := "stdio", port := 0,
                    uptime := 0, clientCount := 0, startedAt := some s.now,
                    error := none } },
      { success := true, error := none })
  else
    (s, { success := false, error := some "不支持的传输类型" })

/-- C9: `switchTransport` never throws (it is total and every failure is a
`{success: false, error}` value): a failed result always carries an error
message, an unsupported transport kind returns `{success: false, error}`
leaving the state unchanged, and an occupied port (when not already bound to
that exact port) returns `{success: false, error}` with the running server
and its `ServerState` untouched. -/
theorem switchTransport_safe (transport : String) (portArg : Option Int)
    (s : SysState) :
    ((switchTransport transport portArg s).2.success = false →
      (switchTransport transport portArg s).2.error.isSome = true) ∧
    (transport ≠ "http" → transport ≠ "auto" → transport ≠ "stdio" →
      switchTransport transport portArg s
        = (s, { success := false, error := some "不支持的传输类型" })) ∧
    ((transport = "http" ∨ transport = "auto") →
      (s.server.isRunning = false ∨ s.server.port ≠ portArg.getD s.server.port) →
      checkPortAvailable (portArg.getD s.server.port) s = false →
      switchTransport transport portArg s
        = (s, { success := false,
                error := some ("端口 " ++ toString (portArg.getD s.server.port)
                  ++ " 已被占用") })) := by
  refine ⟨?_, ?_, ?_⟩
  · intro hfail
    by_cases h1 : transport = "http" ∨ transport = "auto"
    · by_cases h2 : (s.server.isRunning = false ∨
          ¬s.server.port = portArg.getD s.server.port) ∧
          checkPortAvailable (portArg.getD s.server.port) s = false
      · simp [switchTransport, h1, h2]
      · rcases hr : restartHTTPServer (portArg.getD s.server.port) s with ⟨s', r⟩
        cases r with
        | ok u => simp [switchTransport, h1, h2, hr] at hfail
        | error e => simp [switchTransport, h1, h2, hr]
    · by_cases h3 : transport = "stdio"
      · simp [switchTransport, h1, h3] at hfail
      · simp [switchTransport, h1, h3]
  · intro hn1 hn2 hn3
    have h1 : ¬(transport = "http" ∨ transport = "auto") := by
      rintro (h | h) <;> [exact hn1 h; exact hn2 h]
    simp [switchTransport, h1, hn3]
  · intro h1 hrun hunavail
    rcases hrun with h | h <;>
      simp [switchTransport, h1, h, hunavail]

/-- A stopped system state with port 7000 held by another process. -/
def sys0 : SysState :=
  { server := { isRunning := false, transport := "http", port := 6000,
                uptime := 0, clientCount := 0, startedAt := none,
                error := none },
    httpServerObj := false, listening := none, sseCount := 0,
    stdioActive := false, occupied := [7000], now := 0 }

/-- C9 (witness): switching to HTTP on the occupied port 7000 fails with an
error and leaves the state unchanged; an unsupported kind fails likewise. -/
theorem switchTransport_safe_witness :
    switchTransport "http" (some 7000) sys0
      = (sys0, { success := false,
                 error := some ("端口 " ++ toString (7000 : Int) ++ " 已被占用") }) ∧
    switchTransport "bogus" none sys0
      = (sys0, { success := false, error := some "不支持的传输类型" }) := by
  constructor
  · exact (switchTransport_safe "http" (some 7000) sys0).2.2
      (Or.inl rfl) (Or.inl rfl) (by decide)
  · exact (switchTransport_safe "bogus" none sys0).2.1
      (by decide) (by decide) (by decide)

/-- C10: calling `startHTTPServer p` while `httpServer` is already non-null
resolves successfully and changes nothing: no new listener is created, the
bound port and every field of `ServerState` stay as they were, for every
requested port `p`. -/
theorem startHTTPServer_idempotent (p : Int) (s : SysState)
    (h : s.httpServerObj = true) :
    startHTTPServer p s = (s, .ok ()) ∧
    (startHTTPServer p s).1.listening = s.listening ∧
    (startHTTPServer p s).1.server = s.server := by
  have hmain : startHTTPServer p s = (s, .ok ()) := by
    simp [startHTTPServer, h]
  exact ⟨hmain, by rw [hmain], by rw [hmain]⟩

/-- A system state with the HTTP server live on port 3456. -/
def sysRunning : SysState :=
  { server := { isRunning := true, transport := "http", port := 3456,
                uptime := 0, clientCount := 0, startedAt := some 100,
                error := none },
    httpServerObj := true, listening := some 3456, sseCount := 2,
    stdioActive := false, occupied := [], now := 200 }

/-- C10 (witness): starting again with the different port 9999 resolves
successfully while the listener stays on 3456 and `ServerState.port` keeps
its previous value. -/
theorem startHTTPServer_idempotent_witness :
    startHTTPServer 9999 sysRunning = (sysRunning, .ok ()) ∧
    (startHTTPServer 9999 sysRunning).1.listening = some 3456 ∧
    (startHTTPServer 9999 sysRunning).1.server.port = 3456 := by
  obtain ⟨h1, h2, h3⟩ := startHTTPServer_idempotent 9999 sysRunning rfl
  exact ⟨h1, by rw [h1]; rfl, by rw [h1]; rfl⟩

/-! Confirmation panel coordinator (infiniteAskPanel.ts).  The extension
entry point (extension/index.ts) wires `showLocalPopup` to
`InfiniteAskPanel.show` of views/infiniteAskPanel.ts, the Map-based
multi-panel class. -/

/-- `InfiniteAskResult` (infiniteAskPanel.ts:15-19); attached images are
elided. -/
structure AskResult where
  shouldContinue : Bool
  userInstruction : Option String
  deriving DecidableEq

/-- Per-panel bookkeeping: whether the instance field `_resolvePromise` is
still set, and whether the 24-hour timer is still pending. -/
structure PanelRec where
  resolverSet : Bool
  timerPending : Bool
  deriving DecidableEq

/-- The coordinator state: the static `panels` map in insertion order (a
panel's id `infinite-ask-<counter>-<timestamp>` is modelled by its
`panelCounter` value), the per-id promise outcomes (`none` = the caller's
promise is still pending; it outlives the panel), and `panelCounter`. -/
structure PanelsState where
  panels : List (Nat × PanelRec)
  promises : List (Nat × Option AskResult)
  counter : Nat
  deriving DecidableEq

/-- Association-list lookup with `Nat` keys (JS `Map.get`). -/
def lookupNat {α : Type} : List (Nat × α) → Nat → Option α
  | [], _ => none
  | (k', v) :: rest, k => if k' = k then some v else lookupNat rest k

/-- JS `Map.delete`. -/
def removeNat {α : Type} (l : List (Nat × α)) (k : Nat) : List (Nat × α) :=
  l.filter (fun kv => kv.1 != k)

/-- First-resolution-wins promise semantics: record `r` only while the
promise is pending. -/
def resolvePromise (s : PanelsState) (id : Nat) (r : AskResult) : PanelsState :=
  { s with
      promises := s.promises.map (fun kv =>
        if kv.1 = id then
          (kv.1, match kv.2 with
                 | none => some r
                 | some x => some x)
        else kv) }

/-- Overwrite the panel record at `id`. -/
def updatePanel (s : PanelsState) (id : Nat) (p : PanelRec) : PanelsState :=
  { s with
      panels := s.panels.map (fun kv => if kv.1 = id then (kv.1, p) else kv) }

/-- Embeds `InfiniteAskPanel.show` (infiniteAskPanel.ts:197-268) at the event
level: bump `panelCounter`, register the new panel in the map (Map insertion
appends), install the resolver and arm the 24-hour timer; the new pending
promise is recorded.  Returns the new state and the new panel's id. -/
def showPanel (s : PanelsState) : PanelsState × Nat :=
  let id := s.counter + 1
  ({ panels := s.panels ++ [(id, { resolverSet := true, timerPending := true })],
     promises := s.promises ++ [(id, none)],
     counter := id }, id)

/-- Embeds `InfiniteAskPanel.dispose` (infiniteAskPanel.ts:273-292): remove
the panel from the map; a still-set resolver is invoked with
`{shouldContinue: false}` (the wrapper also clears the timer). -/
def disposePanel (s : PanelsState) (id : Nat) : PanelsState :=
  match lookupNat s.panels id with
  | some p =>
    let s1 := { s with panels := removeNat s.panels id }
    if p.resolverSet then
      resolvePromise s1 id { shouldContinue := false, userInstruction := none }
    else s1
  | none => s

/-- Embeds the `infinite_ask_response` webview message handler
(infiniteAskPanel.ts:103-117): when the resolver is still set, invoke it
(the wrapper clears the timer and fulfils the promise) and null it, then
dispose the panel. -/
def userRespond (s : PanelsState) (id : Nat) (r : AskResult) : PanelsState :=
  match lookupNat s.panels id with
  | some p =>
    if p.resolverSet then
      disposePanel
        (updatePanel (resolvePromise s id r) id
          { resolverSet := false, timerPending := false }) id
    else disposePanel s id
  | none => s

/-- Embeds the 24-hour timeout callback (infiniteAskPanel.ts:254-259): when
it fires with the resolver still set, it resolves the promise with
`{shouldContinue: false}` and disposes the panel (whose own resolution of the
already-settled promise is a no-op). -/
def timeoutFire (s : PanelsState) (id : Nat) : PanelsState :=
  match lookupNat s.panels id with
  | some p =>
    if p.timerPending then
      if p.resolverSet then
        disposePanel
          (resolvePromise s id { shouldContinue := false, userInstruction := none }) id
      else updatePanel s id { p with timerPending := false }
    else s
  | none => s

/-- Keys registered in the maps never exceed the counter (true of every
reachable state; ids embed strictly increasing counter values). -/
def wfPanels (s : PanelsState) : Prop :=
  (∀ kv ∈ s.panels, kv.1 ≤ s.counter) ∧ (∀ kv ∈ s.promises, kv.1 ≤ s.counter)

def emptyPanels : PanelsState :=
  { panels := [], promises := [], counter := 0 }

/-! Lookup lemmas for the coordinator state. -/

theorem lookupNat_append {α : Type} (l₁ l₂ : List (Nat × α)) (k : Nat) :
    lookupNat (l₁ ++ l₂) k = (lookupNat l₁ k).or (lookupNat l₂ k) := by
  induction l₁ with
  | nil => simp [lookupNat]
  | cons kv rest ih =>
    obtain ⟨k', v⟩ := kv
    by_cases h : k' = k <;> simp [lookupNat, h, ih]

theorem lookupNat_map_entry {α : Type} (g : Nat → α → α) (id k : Nat)
    (l : List (Nat × α)) :
    lookupNat (l.map (fun kv => if kv.1 = id then (kv.1, g kv.1 kv.2) else kv)) k
      = if k = id then (lookupNat l k).map (g id) else lookupNat l k := by
  induction l with
  | nil => by_cases h : k = id <;> simp [lookupNat, h]
  | cons kv rest ih =>
    obtain ⟨k', v⟩ := kv
    rw [List.map_cons]
    by_cases h1 : k' = id
    · have hhead : (if (k', v).1 = id then ((k', v).1, g (k', v).1 (k', v).2)
          else (k', v)) = (k', g k' v) := by simp [h1]
      rw [hhead]
      subst h1
      by_cases h2 : k' = k
      · subst h2
        simp [lookupNat, ih]
      · simp [lookupNat, h2, ih]
    · have hhead : (if (k', v).1 = id then ((k', v).1, g (k', v).1 (k', v).2)
          else (k', v)) = (k', v) := by simp [h1]
      rw [hhead]
      by_cases h2 : k' = k
      · subst h2
        simp [lookupNat, h1, ih]
      · simp [lookupNat, h1, h2, ih]

theorem lookupNat_remove {α : Type} (l : List (Nat × α)) (id k : Nat) :
    lookupNat (removeNat l id) k = if k = id then none else lookupNat l k := by
  induction l with
  | nil => by_cases h : k = id <;> simp [removeNat, lookupNat, h]
  | cons kv rest ih =>
    obtain ⟨k', v⟩ := kv
    have hrest : removeNat ((k', v) :: rest) id
        = if k' = id then removeNat rest id else (k', v) :: removeNat rest id := by
      by_cases h1 : k' = id <;> simp [removeNat, List.filter_cons, h1]
    rw [hrest]
    by_cases h1 : k' = id
    · rw [if_pos h1, ih]
      subst h1
      by_cases h2 : k = k'
      · simp [h2]
      · simp [lookupNat, h2, Ne.symm h2]
    · rw [if_neg h1]
      by_cases h2 : k' = k
      · subst h2
        have hk : ¬ k' = id := h1
        simp [lookupNat, ih, hk]
      · simp [lookupNat, h2, ih]

/-- The value update a promise resolution applies at the resolved id. -/
def resolveUpd (r : AskResult) : Nat → Option AskResult → Option AskResult :=
  fun _ o =>
    match o with
    | none => some r
    | some x => some x

theorem resolvePromise_promises (s : PanelsState) (id : Nat) (r : AskResult)
    (k : Nat) :
    lookupNat (resolvePromise s id r).promises k
      = if k = id then (lookupNat s.promises k).map (resolveUpd r id)
        else lookupNat s.promises k := by
  have h := lookupNat_map_entry (resolveUpd r) id k s.promises
  exact h

theorem resolvePromise_panels (s : PanelsState) (id : Nat) (r : AskResult) :
    (resolvePromise s id r).panels = s.panels := rfl

theorem updatePanel_panels (s : PanelsState) (id : Nat) (p : PanelRec) (k : Nat) :
    lookupNat (updatePanel s id p).panels k
      = if k = id then (lookupNat s.panels k).map (fun _ => p)
        else lookupNat s.panels k := by
  have h := lookupNat_map_entry (fun _ _ => p) id k s.panels
  exact h

theorem updatePanel_promises (s : PanelsState) (id : Nat) (p : PanelRec) :
    (updatePanel s id p).promises = s.promises := rfl

theorem disposePanel_panels (s : PanelsState) (id k : Nat) :
    lookupNat (disposePanel s id).panels k
      = if k = id then none else lookupNat s.panels k := by
  unfold disposePanel
  cases hl : lookupNat s.panels id with
  | none =>
    by_cases h : k = id
    · subst h
      simp [hl]
    · simp [h]
  | some p =>
    by_cases hres : p.resolverSet <;>
      simp [hres, resolvePromise_panels, lookupNat_remove]

theorem disposePanel_promises_ne (s : PanelsState) (id k : Nat) (hk : k ≠ id) :
    lookupNat (disposePanel s id).promises k = lookupNat s.promises k := by
  unfold disposePanel
  cases hl : lookupNat s.panels id with
  | none => rfl
  | some p =>
    by_cases hres : p.resolverSet <;>
      simp [hres, resolvePromise_promises, hk]

theorem disposePanel_promises_resolverFalse (s : PanelsState) (id : Nat)
    (p : PanelRec) (hp : lookupNat s.panels id = some p)
    (h : p.resolverSet = false) :
    (disposePanel s id).promises = s.promises := by
  unfold disposePanel
  rw [hp]
  simp [h]

theorem userRespond_frame (s : PanelsState) (id : Nat) (r : AskResult) (k : Nat)
    (hk : k ≠ id) :
    lookupNat (userRespond s id r).panels k = lookupNat s.panels k ∧
    lookupNat (userRespond s id r).promises k = lookupNat s.promises k := by
  unfold userRespond
  cases hl : lookupNat s.panels id with
  | none => exact ⟨rfl, rfl⟩
  | some p =>
    by_cases hres : p.resolverSet
    · constructor
      · simp [hres, disposePanel_panels, hk, updatePanel_panels,
          resolvePromise_panels]
      · simp [hres, disposePanel_promises_ne _ _ _ hk, updatePanel_promises,
          resolvePromise_promises, hk]
    · constructor
      · simp [hres, disposePanel_panels, hk]
      · simp [hres, disposePanel_promises_ne _ _ _ hk]

theorem userRespond_resolves (s : PanelsState) (id : Nat) (r : AskResult)
    (p : PanelRec) (hp : lookupNat s.panels id = some p)
    (hres : p.resolverSet = true)
    (hpend : lookupNat s.promises id = some none) :
    lookupNat (userRespond s id r).promises id = some (some r) ∧
    lookupNat (userRespond s id r).panels id = none := by
  have hXpanels : lookupNat (updatePanel (resolvePromise s id r) id
      { resolverSet := false, timerPending := false }).panels id
      = some { resolverSet := false, timerPending := false } := by
    rw [updatePanel_panels]
    simp [resolvePromise_panels, hp]
  have hXprom : lookupNat (updatePanel (resolvePromise s id r) id
      { resolverSet := false, timerPending := false }).promises id
      = some (some r) := by
    rw [updatePanel_promises, resolvePromise_promises]
    simp [hpend, resolveUpd]
  unfold userRespond
  rw [hp]
  simp only [hres, if_true]
  constructor
  · rw [disposePanel_promises_resolverFalse _ id
      { resolverSet := false, timerPending := false } hXpanels rfl]
    exact hXprom
  · rw [disposePanel_panels]
    simp

theorem timeoutFire_frame (s : PanelsState) (id k : Nat) (hk : k ≠ id) :
    lookupNat (timeoutFire s id).panels k = lookupNat s.panels k ∧
    lookupNat (timeoutFire s id).promises k = lookupNat s.promises k := by
  unfold timeoutFire
  cases hl : lookupNat s.panels id with
  | none => exact ⟨rfl, rfl⟩
  | some p =>
    by_cases ht : p.timerPending
    · by_cases hres : p.resolverSet
      · constructor
        · simp [ht, hres, disposePanel_panels, hk, resolvePromise_panels]
        · simp [ht, hres, disposePanel_promises_ne _ _ _ hk,
            resolvePromise_promises, hk]
      · constructor
        · simp [ht, hres, updatePanel_panels, hk]
        · simp [ht, hres, updatePanel_promises]
    · constructor <;> simp [ht]

theorem timeoutFire_resolves (s : PanelsState) (id : Nat) (p : PanelRec)
    (hp : lookupNat s.panels id = some p) (ht : p.timerPending = true)
    (hres : p.resolverSet = true)
    (hpend : lookupNat s.promises id = some none) :
    lookupNat (timeoutFire s id).promises id
      = some (some { shouldContinue := false, userInstruction := none }) ∧
    lookupNat (timeoutFire s id).panels id = none := by
  have hYpanels : lookupNat (resolvePromise s id
      { shouldContinue := false, userInstruction := none }).panels id = some p := by
    rw [resolvePromise_panels]
    exact hp
  have hYprom : lookupNat (resolvePromise s id
      { shouldContinue := false, userInstruction := none }).promises id
      = some (some { shouldContinue := false, userInstruction := none }) := by
    rw [resolvePromise_promises]
    simp [hpend, resolveUpd]
  unfold timeoutFire
  rw [hp]
  simp only [ht, hres, if_true]
  constructor
  · unfold disposePanel
    rw [hYpanels]
    simp only [hres, if_true]
    rw [resolvePromise_promises]
    simp [hYprom, resolveUpd]
  · rw [disposePanel_panels]
    simp

theorem lookupNat_none_of_forall {α : Type} (l : List (Nat × α)) (k : Nat)
    (h : ∀ kv ∈ l, kv.1 ≠ k) : lookupNat l k = none := by
  induction l with
  | nil => rfl
  | cons kv rest ih =>
    have hne := h kv (List.mem_cons_self kv rest)
    simp [lookupNat, hne]
    exact ih (fun kv' hkv' => h kv' (List.mem_cons_of_mem kv hkv'))

theorem showPanel_frame (s : PanelsState) (k : Nat) (hk : k ≤ s.counter) :
    lookupNat (showPanel s).1.panels k = lookupNat s.panels k ∧
    lookupNat (showPanel s).1.promises k = lookupNat s.promises k := by
  have hne : ¬ s.counter + 1 = k := by omega
  constructor <;>
    simp [showPanel, lookupNat_append, lookupNat, hne]

/-- The state after `n` consecutive `show` calls. -/
def showTimes (s : PanelsState) : Nat → PanelsState
  | 0 => s
  | n + 1 => (showPanel (showTimes s n)).1

theorem showTimes_counter (s : PanelsState) (n : Nat) :
    (showTimes s n).counter = s.counter + n := by
  induction n with
  | zero => rfl
  | succ n ih =>
    show (showPanel (showTimes s n)).1.counter = s.counter + (n + 1)
    simp [showPanel, ih]
    omega

theorem wfPanels_showPanel (s : PanelsState) (h : wfPanels s) :
    wfPanels (showPanel s).1 := by
  obtain ⟨h1, h2⟩ := h
  constructor
  · intro kv hkv
    simp only [showPanel, List.mem_append, List.mem_singleton] at hkv
    rcases hkv with hkv | hkv
    · have := h1 kv hkv
      simp [showPanel]
      omega
    · subst hkv
      simp [showPanel]
  · intro kv hkv
    simp only [showPanel, List.mem_append, List.mem_singleton] at hkv
    rcases hkv with hkv | hkv
    · have := h2 kv hkv
      simp [showPanel]
      omega
    · subst hkv
      simp [showPanel]

theorem wfPanels_showTimes (s : PanelsState) (n : Nat) (h : wfPanels s) :
    wfPanels (showTimes s n) := by
  induction n with
  | zero => exact h
  | succ n ih => exact wfPanels_showPanel _ ih

theorem showTimes_pending (s : PanelsState) (h : wfPanels s) (n j : Nat)
    (hj1 : 1 ≤ j) (hjn : j ≤ n) :
    lookupNat (showTimes s n).panels (s.counter + j)
      = some { resolverSet := true, timerPending := true } ∧
    lookupNat (showTimes s n).promises (s.counter + j) = some none := by
  induction n with
  | zero => omega
  | succ n ih =>
    by_cases hj : j = n + 1
    · subst hj
      have hwf := wfPanels_showTimes s n h
      have hc := showTimes_counter s n
      have hnone1 : lookupNat (showTimes s n).panels (s.counter + (n + 1)) = none := by
        apply lookupNat_none_of_forall
        intro kv hkv
        have := hwf.1 kv hkv
        omega
      have hnone2 : lookupNat (showTimes s n).promises (s.counter + (n + 1)) = none := by
        apply lookupNat_none_of_forall
        intro kv hkv
        have := hwf.2 kv hkv
        omega
      constructor
      · show lookupNat (showPanel (showTimes s n)).1.panels (s.counter + (n + 1))
          = some { resolverSet := true, timerPending := true }
        simp [showPanel, lookupNat_append, lookupNat, hnone1, hc]
        omega
      · show lookupNat (showPanel (showTimes s n)).1.promises (s.counter + (n + 1))
          = some none
        simp [showPanel, lookupNat_append, lookupNat, hnone2, hc]
        omega
    · have hj' : j ≤ n := by omega
      obtain ⟨ih1, ih2⟩ := ih hj'
      have hk : s.counter + j ≤ (showTimes s n).counter := by
        rw [showTimes_counter]
        omega
      obtain ⟨hf1, hf2⟩ := showPanel_frame (showTimes s n) (s.counter + j) hk
      exact ⟨by rw [show showTimes s (n+1) = (showPanel (showTimes s n)).1 from rfl,
          hf1]; exact ih1,
        by rw [show showTimes s (n+1) = (showPanel (showTimes s n)).1 from rfl,
          hf2]; exact ih2⟩

/-- Resolving the sessions `base+n, base+n-1, ..., base+1` — i.e. in reverse
order of opening — with results `res n, ..., res 1`. -/
def respondRev (base : Nat) (res : Nat → AskResult) : Nat → PanelsState → PanelsState
  | 0, s => s
  | k + 1, s => respondRev base res k (userRespond s (base + (k + 1)) (res (k + 1)))

theorem respondRev_promise_frame (base : Nat) (res : Nat → AskResult) (n : Nat)
    (T : PanelsState) (k : Nat)
    (hk : ∀ j, 1 ≤ j → j ≤ n → base + j ≠ k) :
    lookupNat (respondRev base res n T).promises k = lookupNat T.promises k := by
  induction n generalizing T with
  | zero => rfl
  | succ n ih =>
    show lookupNat (respondRev base res n
        (userRespond T (base + (n + 1)) (res (n + 1)))).promises k
      = lookupNat T.promises k
    rw [ih _ (fun j hj1 hjn => hk j hj1 (by omega))]
    exact (userRespond_frame T (base + (n + 1)) (res (n + 1)) k
      (Ne.symm (hk (n + 1) (by omega) (by omega)))).2

theorem respondRev_correct (base : Nat) (res : Nat → AskResult) :
    ∀ (n : Nat) (T : PanelsState),
    (∀ j, 1 ≤ j → j ≤ n →
      lookupNat T.panels (base + j)
        = some { resolverSet := true, timerPending := true } ∧
      lookupNat T.promises (base + j) = some none) →
    ∀ k, 1 ≤ k → k ≤ n →
      lookupNat (respondRev base res n T).promises (base + k)
        = some (some (res k)) := by
  intro n
  induction n with
  | zero => intro T hT k h1 h2; omega
  | succ n ih =>
    intro T hT k h1 h2
    by_cases hk : k = n + 1
    · subst hk
      obtain ⟨hpan, hpend⟩ := hT (n + 1) (by omega) (by omega)
      have hres := userRespond_resolves T (base + (n + 1)) (res (n + 1))
        { resolverSet := true, timerPending := true } hpan rfl hpend
      show lookupNat (respondRev base res n
          (userRespond T (base + (n + 1)) (res (n + 1)))).promises (base + (n + 1))
        = some (some (res (n + 1)))
      rw [respondRev_promise_frame base res n _ (base + (n + 1))
        (fun j hj1 hjn => by omega)]
      exact hres.1
    · have hk' : k ≤ n := by omega
      have hT1 : ∀ j, 1 ≤ j → j ≤ n →
          lookupNat (userRespond T (base + (n + 1)) (res (n + 1))).panels (base + j)
            = some { resolverSet := true, timerPending := true } ∧
          lookupNat (userRespond T (base + (n + 1)) (res (n + 1))).promises (base + j)
            = some none := by
        intro j hj1 hjn
        have hne : base + j ≠ base + (n + 1) := by omega
        obtain ⟨hf1, hf2⟩ := userRespond_frame T (base + (n + 1)) (res (n + 1))
          (base + j) hne
        exact ⟨by rw [hf1]; exact (hT j hj1 (by omega)).1,
          by rw [hf2]; exact (hT j hj1 (by omega)).2⟩
      exact ih (userRespond T (base + (n + 1)) (res (n + 1))) hT1 k h1 hk'

/-- C2: confirmation sessions are tracked independently in the map keyed by
id.  Opening a new session leaves every previously registered session's
record and pending promise unchanged; resolving or timing out one session
leaves every other session untouched; and opening N sessions concurrently and
resolving them in reverse order yields N distinct, correctly matched results. -/
theorem concurrent_sessions_independent :
    (∀ (s : PanelsState) (k : Nat), k ≤ s.counter →
      lookupNat (showPanel s).1.panels k = lookupNat s.panels k ∧
      lookupNat (showPanel s).1.promises k = lookupNat s.promises k) ∧
    (∀ (s : PanelsState) (id : Nat) (r : AskResult) (k : Nat), k ≠ id →
      lookupNat (userRespond s id r).panels k = lookupNat s.panels k ∧
      lookupNat (userRespond s id r).promises k = lookupNat s.promises k) ∧
    (∀ (s : PanelsState) (id k : Nat), k ≠ id →
      lookupNat (timeoutFire s id).panels k = lookupNat s.panels k ∧
      lookupNat (timeoutFire s id).promises k = lookupNat s.promises k) ∧
    (∀ (s : PanelsState) (n : Nat), wfPanels s → ∀ res : Nat → AskResult,
      ∀ k, 1 ≤ k → k ≤ n →
        lookupNat (respondRev s.counter res n (showTimes s n)).promises
          (s.counter + k) = some (some (res k))) := by
  refine ⟨fun s k hk => showPanel_frame s k hk,
    fun s id r k hk => userRespond_frame s id r k hk,
    fun s id k hk => timeoutFire_frame s id k hk,
    fun s n hwf res k h1 h2 => ?_⟩
  exact respondRev_correct s.counter res n (showTimes s n)
    (fun j hj1 hjn => showTimes_pending s hwf n j hj1 hjn) k h1 h2

/-- C2 (witness): three sessions opened from the empty state and resolved in
reverse order each receive their own result; and opening a second session
leaves the first one pending. -/
theorem concurrent_sessions_independent_witness :
    lookupNat (respondRev 0 (fun k =>
        { shouldContinue := true, userInstruction := some (toString k) }) 3
        (showTimes emptyPanels 3)).promises 2
      = some (some { shouldContinue := true, userInstruction := some (toString 2) }) ∧
    lookupNat (showPanel (showPanel emptyPanels).1).1.promises 1
      = lookupNat (showPanel emptyPanels).1.promises 1 := by
  constructor
  · have h := concurrent_sessions_independent.2.2.2 emptyPanels 3
      (by refine ⟨?_, ?_⟩ <;> intro kv hkv <;> simp [emptyPanels] at hkv)
      (fun k => { shouldContinue := true, userInstruction := some (toString k) })
      2 (by decide) (by decide)
    simpa using h
  · exact (concurrent_sessions_independent.1 (showPanel emptyPanels).1 1
      (by decide)).2

/-- C3: a session whose 24-hour timer fires with no earlier resolution has
its promise resolved to `{shouldContinue: false}` and is removed from the
live panel map (its timer was consumed and its resolver nulled, so nothing
pending leaks). -/
theorem session_timeout_resolves_false (s : PanelsState) (id : Nat)
    (p : PanelRec) (hp : lookupNat s.panels id = some p)
    (ht : p.timerPending = true) (hres : p.resolverSet = true)
    (hpend : lookupNat s.promises id = some none) :
    lookupNat (timeoutFire s id).promises id
      = some (some { shouldContinue := false, userInstruction := none }) ∧
    lookupNat (timeoutFire s id).panels id = none :=
  timeoutFire_resolves s id p hp ht hres hpend

/-- C3 (witness): the single session opened from the empty state times out to
`{shouldContinue: false}` and disappears from the live set. -/
theorem session_timeout_resolves_false_witness :
    lookupNat (timeoutFire (showPanel emptyPanels).1 1).promises 1
      = some (some { shouldContinue := false, userInstruction := none }) ∧
    lookupNat (timeoutFire (showPanel emptyPanels).1 1).panels 1 = none :=
  session_timeout_resolves_false (showPanel emptyPanels).1 1
    { resolverSet := true, timerPending := true } (by rfl) rfl rfl (by rfl)

end WindsurfEndless
